import Mathlib

set_option maxRecDepth 40000

/-!
Verification development for the mcp-alerts repository: a relay that receives
signed MCP webhook events over HTTP, verifies their HMAC-SHA256 signatures,
acknowledges them, and delivers rendered notifications to Slack over a
persistent Socket Mode session with a one-shot incoming-webhook fallback.

The embedding below translates, from the source:
 * the signature verifier module (`generateSignature`, `verifySignature`,
   `getExpressVerifyCallback`, `mcpVerifyMiddleware` in `utils/verifier`),
   on top of a concrete executable HMAC-SHA256 (the Node `crypto` primitives
   `createHmac`/`timingSafeEqual` are modelled from their documented
   semantics, since they are platform code, not repository code);
 * the Express webhook route handler in `app.js` (acknowledgment, render,
   delivery attempt with webhook fallback), as an event-trace function;
 * the Socket Mode connectivity flag `socketModeConnected` and its writers,
   as a reducer over lifecycle signals;
 * the fallback webhook client `sendWebhookMessage` in `utils/slackClient.js`.
-/

namespace McpAlerts

/-! ## 32-bit word arithmetic on `Nat` (for SHA-256) -/

/-- Truncate to a 32-bit word. -/
def w32 (n : Nat) : Nat := n % 4294967296

/-- Right rotation of a 32-bit word. -/
def rotr32 (x n : Nat) : Nat := w32 ((x >>> n) ||| (x <<< (32 - n)))

/-- Bitwise complement of a 32-bit word. -/
def not32 (x : Nat) : Nat := x ^^^ 4294967295

/-! ## SHA-256 (FIPS 180-4), executable, bytes as `Nat` lists -/

/-- SHA-256 choice function. -/
def shaCh (x y z : Nat) : Nat := (x &&& y) ^^^ (not32 x &&& z)

/-- SHA-256 majority function. -/
def shaMaj (x y z : Nat) : Nat := (x &&& y) ^^^ (x &&& z) ^^^ (y &&& z)

/-- SHA-256 big sigma 0. -/
def shaBig0 (x : Nat) : Nat := rotr32 x 2 ^^^ rotr32 x 13 ^^^ rotr32 x 22

/-- SHA-256 big sigma 1. -/
def shaBig1 (x : Nat) : Nat := rotr32 x 6 ^^^ rotr32 x 11 ^^^ rotr32 x 25

/-- SHA-256 small sigma 0. -/
def shaSmall0 (x : Nat) : Nat := rotr32 x 7 ^^^ rotr32 x 18 ^^^ (x >>> 3)

/-- SHA-256 small sigma 1. -/
def shaSmall1 (x : Nat) : Nat := rotr32 x 17 ^^^ rotr32 x 19 ^^^ (x >>> 10)

/-- SHA-256 round constants (decimal, row-major). -/
def shaK : List Nat :=
  [1116352408, 1899447441, 3049323471, 3921009573,
   961987163, 1508970993, 2453635748, 2870763221,
   3624381080, 310598401, 607225278, 1426881987,
   1925078388, 2162078206, 2614888103, 3248222580,
   3835390401, 4022224774, 264347078, 604807628,
   770255983, 1249150122, 1555081692, 1996064986,
   2554220882, 2821834349, 2952996808, 3210313671,
   3336571891, 3584528711, 113926993, 338241895,
   666307205, 773529912, 1294757372, 1396182291,
   1695183700, 1986661051, 2177026350, 2456956037,
   2730485921, 2820302411, 3259730800, 3345764771,
   3516065817, 3600352804, 4094571909, 275423344,
   430227734, 506948616, 659060556, 883997877,
   958139571, 1322822218, 1537002063, 1747873779,
   1955562222, 2024104815, 2227730452, 2361852424,
   2428436474, 2756734187, 3204031479, 3329325298]

/-- SHA-256 working state: eight 32-bit words. -/
structure Sha256State where
  a : Nat
  b : Nat
  c : Nat
  d : Nat
  e : Nat
  f : Nat
  g : Nat
  h : Nat
deriving DecidableEq

/-- SHA-256 initial hash value (decimal). -/
def shaInit : Sha256State :=
  ⟨1779033703, 3144134277, 1013904242, 2773480762,
   1359893119, 2600822924, 528734635, 1541459225⟩

/-- One SHA-256 compression round; `kw` is the round constant plus schedule word. -/
def shaRound (st : Sha256State) (kw : Nat) : Sha256State :=
  let t1 := w32 (st.h + shaBig1 st.e + shaCh st.e st.f st.g + kw)
  let t2 := w32 (shaBig0 st.a + shaMaj st.a st.b st.c)
  ⟨w32 (t1 + t2), st.a, st.b, st.c, w32 (st.d + t1), st.e, st.f, st.g⟩

/-- Big-endian 32-bit words from bytes (complete 4-byte groups). -/
def bytesToWords32 : List Nat → List Nat
  | b0 :: b1 :: b2 :: b3 :: rest =>
      ((b0 <<< 24) ||| (b1 <<< 16) ||| (b2 <<< 8) ||| b3) :: bytesToWords32 rest
  | _ => []

/-- Big-endian bytes of a 32-bit word. -/
def word32Bytes (w : Nat) : List Nat :=
  [(w >>> 24) &&& 255, (w >>> 16) &&& 255, (w >>> 8) &&& 255, w &&& 255]

/-- Next message-schedule word from the words produced so far. -/
def shaNextWord (ws : List Nat) : Nat :=
  let n := ws.length
  w32 (shaSmall1 (ws.getD (n - 2) 0) + ws.getD (n - 7) 0 +
       shaSmall0 (ws.getD (n - 15) 0) + ws.getD (n - 16) 0)

/-- Extend the message schedule by `fuel` further words. -/
def shaExtend : Nat → List Nat → List Nat
  | 0, ws => ws
  | fuel + 1, ws => shaExtend fuel (ws ++ [shaNextWord ws])

/-- Full 64-word message schedule of one 16-word chunk. -/
def shaSchedule (chunkWords : List Nat) : List Nat := shaExtend 48 chunkWords

/-- Compress one 64-byte chunk into the running hash state. -/
def shaCompressChunk (st : Sha256State) (chunk : List Nat) : Sha256State :=
  let ws := shaSchedule (bytesToWords32 chunk)
  let st2 := (List.zip shaK ws).foldl (fun s kw => shaRound s (w32 (kw.1 + kw.2))) st
  ⟨w32 (st.a + st2.a), w32 (st.b + st2.b), w32 (st.c + st2.c), w32 (st.d + st2.d),
   w32 (st.e + st2.e), w32 (st.f + st2.f), w32 (st.g + st2.g), w32 (st.h + st2.h)⟩

/-- Eight bytes of the 64-bit big-endian message bit length. -/
def lenBytes64 (n : Nat) : List Nat :=
  [(n >>> 56) &&& 255, (n >>> 48) &&& 255, (n >>> 40) &&& 255, (n >>> 32) &&& 255,
   (n >>> 24) &&& 255, (n >>> 16) &&& 255, (n >>> 8) &&& 255, n &&& 255]

/-- SHA-256 padding: 0x80, zeros to 56 mod 64, then the bit length. -/
def shaPad (msg : List Nat) : List Nat :=
  let zeros := (64 - (msg.length + 9) % 64) % 64
  msg ++ [128] ++ List.replicate zeros 0 ++ lenBytes64 (8 * msg.length)

/-- Split a byte list into 64-byte chunks (`fuel` bounds the recursion). -/
def chunksOf64 : Nat → List Nat → List (List Nat)
  | 0, _ => []
  | _, [] => []
  | fuel + 1, l => l.take 64 :: chunksOf64 fuel (l.drop 64)

/-- SHA-256 digest (32 bytes) of a byte list. -/
def sha256 (msg : List Nat) : List Nat :=
  let padded := shaPad msg
  let final := (chunksOf64 padded.length padded).foldl shaCompressChunk shaInit
  word32Bytes final.a ++ word32Bytes final.b ++ word32Bytes final.c ++ word32Bytes final.d ++
  word32Bytes final.e ++ word32Bytes final.f ++ word32Bytes final.g ++ word32Bytes final.h

/-- HMAC-SHA256 (RFC 2104) of a message under a key, both byte lists. This is the
algorithm run by Node's `crypto.createHmac('sha256', secret)` used in the verifier. -/
def hmacSha256 (key msg : List Nat) : List Nat :=
  let k0 := if 64 < key.length then sha256 key else key
  let kPad := k0 ++ List.replicate (64 - k0.length) 0
  let oKey := kPad.map (fun b => b ^^^ 92)
  let iKey := kPad.map (fun b => b ^^^ 54)
  sha256 (oKey ++ sha256 (iKey ++ msg))

/-! ## Byte/string codecs used at the verifier boundary -/

/-- UTF-8 encoding of one character. -/
def utf8EncodeChar (c : Char) : List Nat :=
  let n := c.toNat
  if n < 128 then [n]
  else if n < 2048 then [192 ||| (n >>> 6), 128 ||| (n &&& 63)]
  else if n < 65536 then
    [224 ||| (n >>> 12), 128 ||| ((n >>> 6) &&& 63), 128 ||| (n &&& 63)]
  else
    [240 ||| (n >>> 18), 128 ||| ((n >>> 12) &&& 63), 128 ||| ((n >>> 6) &&& 63), 128 ||| (n &&& 63)]

/-- UTF-8 bytes of a string (what `hmac.update(payload, 'utf8')` hashes). -/
def utf8Bytes (s : String) : List Nat := s.data.flatMap utf8EncodeChar

/-- Lowercase hex digit character of a nibble. -/
def hexDigitChar (n : Nat) : Char := if n < 10 then Char.ofNat (48 + n) else Char.ofNat (87 + n)

/-- Lowercase hex encoding of a byte list (Node `hmac.digest('hex')`). -/
def bytesToHex (l : List Nat) : String :=
  String.mk (l.flatMap (fun b => [hexDigitChar ((b >>> 4) &&& 15), hexDigitChar (b &&& 15)]))

/-- HMAC-SHA256 hex digest of a string payload under a string secret. -/
def hmacSha256Hex (key msg : List Nat) : String := bytesToHex (hmacSha256 key msg)

/-- Hex value of one character, `none` for a non-hex character. -/
def hexVal (c : Char) : Option Nat :=
  let n := c.toNat
  if 48 ≤ n ∧ n ≤ 57 then some (n - 48)
  else if 97 ≤ n ∧ n ≤ 102 then some (n - 87)
  else if 65 ≤ n ∧ n ≤ 70 then some (n - 55)
  else none

/-- Hex decoding of a character list with Node `Buffer.from(s, 'hex')` semantics:
decode complete valid digit pairs from the front, stop at the first invalid
digit or lone trailing digit. -/
def hexDecodeChars : List Char → List Nat
  | c1 :: c2 :: rest =>
      match hexVal c1, hexVal c2 with
      | some hi, some lo => (16 * hi + lo) :: hexDecodeChars rest
      | _, _ => []
  | _ => []

/-- Hex decoding of a string, Node `Buffer.from(s, 'hex')` semantics. -/
def hexDecode (s : String) : List Nat := hexDecodeChars s.data

/-! ## Signature verifier (`utils/verifier`, the module loaded by `app.js`) -/

/-- From `generateSignature` in `utils/verifier`: throws unless the payload is a
string (type-level here) and the secret a non-empty string; returns the
HMAC-SHA256 hex digest of the payload under the secret, with the `sha256=` tag.
Thrown errors are the `Except.error` branch. -/
def generateSignature (payload secret : String) : Except String String :=
  if secret.length = 0 then Except.error "Secret must be a non-empty string."
  else Except.ok ("sha256=" ++ hmacSha256Hex (utf8Bytes secret) (utf8Bytes payload))

/-- From `verifySignature`: `s.replace(/^sha256=/, '')`, removing one leading
`sha256=` tag when present. -/
def stripSigTag (s : String) : String :=
  if s.data.take 7 = "sha256=".data then String.mk (s.data.drop 7) else s

/-- Byte comparison loop of Node's `crypto.timingSafeEqual`, modelled from its
documented constant-time semantics: every byte position is processed, a XOR
of each pair is OR-accumulated, with no early exit. The second component
counts the loop iterations performed (the cost of the comparison). -/
def timingSafeEqAux : List Nat → List Nat → Nat × Nat
  | x :: xs, y :: ys =>
      let r := timingSafeEqAux xs ys
      (r.1 ||| (x ^^^ y), r.2 + 1)
  | _, _ => (0, 0)

/-- Node's `crypto.timingSafeEqual`, modelled from its documented semantics:
throws when the buffer lengths differ, otherwise compares in constant time. -/
def timingSafeEqual (a b : List Nat) : Except String Bool :=
  if a.length = b.length then Except.ok ((timingSafeEqAux a b).1 == 0)
  else Except.error "Input buffers must have the same byte length"

/-- From `verifySignature` in `utils/verifier` (the version `mcpVerifyMiddleware`
calls): falsy inputs give `false`; otherwise compute the expected signature,
strip the `sha256=` tag from both, hex-decode both, return `false` when the
decoded lengths differ, else compare with `crypto.timingSafeEqual`.
`Except.error` marks a thrown exception (provably never produced). -/
def verifySignature (payload signature secret : String) : Except String Bool :=
  if payload.length = 0 || signature.length = 0 || secret.length = 0 then Except.ok false
  else
    match generateSignature payload secret with
    | Except.error e => Except.error e
    | Except.ok expectedSignature =>
      let expected := stripSigTag expectedSignature
      let received := stripSigTag signature
      let expectedBuffer := hexDecode expected
      let receivedBuffer := hexDecode received
      if expectedBuffer.length != receivedBuffer.length then Except.ok false
      else timingSafeEqual expectedBuffer receivedBuffer

/-- Cost model of `verifySignature`: the number of byte-comparison iterations the
constant-time loop performs on the given inputs (0 whenever control never
reaches the `timingSafeEqual` call). Mirrors `verifySignature` exactly. -/
def verifyCompareSteps (payload signature secret : String) : Nat :=
  if payload.length = 0 || signature.length = 0 || secret.length = 0 then 0
  else
    match generateSignature payload secret with
    | Except.error _ => 0
    | Except.ok expectedSignature =>
      let expectedBuffer := hexDecode (stripSigTag expectedSignature)
      let receivedBuffer := hexDecode (stripSigTag signature)
      if expectedBuffer.length != receivedBuffer.length then 0
      else (timingSafeEqAux expectedBuffer receivedBuffer).2

/-! ## Express boundary: raw-body capture and verification middleware -/

/-- JS string truthiness for an optional string-valued expression
(`process.env` variable, `req.get` header, `req.rawBody`): `undefined` and the
empty string are falsy. -/
def jsStrTruthy : Option String → Bool
  | none => false
  | some s => s.length != 0

/-- From `getExpressVerifyCallback`: the body-parser verify hook sets
`req.rawBody` to the decoded body string only when the captured buffer is
non-empty (`if (buf && buf.length)`); the body is modelled by its string. -/
def captureRawBody (body : String) : Option String :=
  if body.length != 0 then some body else none

/-- Outcome of an Express middleware: respond with a status and body text, or
pass control to the next handler. -/
inductive MiddlewareResult where
  | respond (status : Nat) (text : String)
  | next
deriving DecidableEq

/-- From `mcpVerifyMiddleware`: check the signing secret, then the
`MCP-Signature` header, then `req.rawBody`, then verify; `next` only on a valid
signature. A thrown verification exception would reach the framework error
handler (status 500); the length guard makes that branch unreachable. -/
def mcpVerifyMiddleware (secret signatureHeader rawBody : Option String) : MiddlewareResult :=
  if jsStrTruthy secret = false then
    MiddlewareResult.respond 500 "Webhook signing secret not configured."
  else if jsStrTruthy signatureHeader = false then
    MiddlewareResult.respond 400 "Missing signature header."
  else if jsStrTruthy rawBody = false then
    MiddlewareResult.respond 500 "Raw request body not available for verification."
  else
    match verifySignature (rawBody.getD "") (signatureHeader.getD "") (secret.getD "") with
    | Except.ok true => MiddlewareResult.next
    | Except.ok false => MiddlewareResult.respond 401 "Invalid signature."
    | Except.error e => MiddlewareResult.respond 500 e

/-! ## Delivery channels and the webhook route handler (`app.js`) -/

/-- A JS error-like value caught in the delivery path; `message` is its
`.message` property, `none` when the value has no such field (`undefined`). -/
structure JsError where
  message : Option String
deriving DecidableEq

/-- Rejection values of `sendWebhookMessage` in `utils/slackClient.js`: a plain
object `{success: false, statusCode, response}` for a non-2xx reply, or
`{success: false, error}` when the request emits an error. -/
inductive WebhookFailure where
  | httpStatus (statusCode : Nat) (response : String)
  | requestError (error : String)
deriving DecidableEq

/-- Reading `.message` on a `sendWebhookMessage` rejection value: neither
rejection object carries a `message` field, so the read yields `undefined`. -/
def WebhookFailure.message (_ : WebhookFailure) : Option String := none

/-- From `sendWebhookMessage` in `utils/slackClient.js`: the promise resolves
exactly when the HTTP status is 2xx, and otherwise rejects with the
status/response object. -/
def sendWebhookMessage (statusCode : Nat) (responseData : String) : Except WebhookFailure Unit :=
  if 200 ≤ statusCode ∧ statusCode < 300 then Except.ok ()
  else Except.error (WebhookFailure.httpStatus statusCode responseData)

/-- The two delivery channels of the router. -/
inductive Channel where
  | persistent
  | webhook
deriving DecidableEq

/-- Outbound-call trace of the delivery section of the `app.js` webhook handler
(the try/catch after the acknowledgment): when `socketModeConnected`, try
`chat.postMessage` (outcome `primary`, `none` = success, `some e` = thrown
error); otherwise call `sendWebhookMessage` (outcome `webhook1`). On a caught
error whose `.message` differs from `'webhook fallback already used'`, call
`sendWebhookMessage` once more; its own failure is only logged. -/
def routerTrace (socketModeConnected : Bool) (primary : Option JsError)
    (webhook1 : Option WebhookFailure) : List Channel :=
  if socketModeConnected then
    match primary with
    | none => [Channel.persistent]
    | some slackError =>
      if slackError.message = some "webhook fallback already used" then [Channel.persistent]
      else [Channel.persistent, Channel.webhook]
  else
    match webhook1 with
    | none => [Channel.webhook]
    | some slackError =>
      if slackError.message = some "webhook fallback already used" then [Channel.webhook]
      else [Channel.webhook, Channel.webhook]

/-- Observable events of the verified-request handler body in `app.js`. -/
inductive HandlerEvent where
  | ack (status : Nat) (text : String)
  | renderMsg
  | outbound (c : Channel)
deriving DecidableEq

/-- Event trace of the `app.js` handler body after the middleware calls `next`:
destructure the parsed body, send the 200 acknowledgment, call
`formatSlackMessage` (`renderOk = false` when the formatter throws, which the
outer catch logs after the response is already sent), then run the delivery
attempts. -/
def webhookHandlerTrace (renderOk socketModeConnected : Bool)
    (primary : Option JsError) (webhook1 : Option WebhookFailure) : List HandlerEvent :=
  HandlerEvent.ack 200 "Webhook received" ::
  HandlerEvent.renderMsg ::
  (if renderOk then (routerTrace socketModeConnected primary webhook1).map HandlerEvent.outbound
   else [])

/-- Whether no outbound delivery call occurs before the first acknowledgment in
a handler trace. -/
def noOutboundBeforeAck : List HandlerEvent → Bool
  | [] => true
  | HandlerEvent.outbound _ :: _ => false
  | HandlerEvent.ack _ _ :: _ => true
  | HandlerEvent.renderMsg :: rest => noOutboundBeforeAck rest

/-- Status and text of the first response written in a handler trace. -/
def firstAck : List HandlerEvent → Option (Nat × String)
  | [] => none
  | HandlerEvent.ack status text :: _ => some (status, text)
  | _ :: rest => firstAck rest

/-- Outcome of one inbound POST on the webhook path: rejected by the
middleware, or processed by the handler with the given event trace. -/
inductive RequestOutcome where
  | rejected (status : Nat) (text : String)
  | processed (trace : List HandlerEvent)
deriving DecidableEq

/-- Outbound delivery calls of a request outcome (none when the middleware
rejected the request). -/
def outboundCalls : RequestOutcome → List Channel
  | RequestOutcome.rejected _ _ => []
  | RequestOutcome.processed t =>
      t.foldr (fun ev acc => match ev with
        | HandlerEvent.outbound c => c :: acc
        | _ => acc) []

/-- One inbound POST on the configured webhook path, end to end: body-parser
captures the raw body, `mcpVerifyMiddleware` gates the request, and on `next`
the handler body runs. -/
def handleMcpPost (secret signatureHeader : Option String) (body : String)
    (renderOk socketModeConnected : Bool) (primary : Option JsError)
    (webhook1 : Option WebhookFailure) : RequestOutcome :=
  match mcpVerifyMiddleware secret signatureHeader (captureRawBody body) with
  | MiddlewareResult.respond status text => RequestOutcome.rejected status text
  | MiddlewareResult.next =>
      RequestOutcome.processed (webhookHandlerTrace renderOk socketModeConnected primary webhook1)

/-! ## Connectivity state tracker (`socketModeConnected` and its writers) -/

/-- The writers of `socketModeConnected` in `app.js`: the four lifecycle
handlers and the error handler write `false`, the `authenticated` handler
writes `true`, and the startup routine writes `true` once `slackApp.start()`
resolves (the `startupComplete` signal). -/
inductive LifecycleSignal where
  | connecting
  | authenticated
  | disconnecting
  | reconnecting
  | errorSignal
  | startupComplete
deriving DecidableEq

/-- The value one signal's handler assigns to `socketModeConnected`
(independent of the previous value: every handler writes a constant). -/
def applySignal (_flag : Bool) (s : LifecycleSignal) : Bool :=
  match s with
  | LifecycleSignal.authenticated => true
  | LifecycleSignal.startupComplete => true
  | _ => false

/-- Value of `socketModeConnected` after a sequence of signals, starting from
its initializer `false`. -/
def socketModeConnectedAfter (signals : List LifecycleSignal) : Bool :=
  signals.foldl applySignal false

/-! ## Helper lemmas -/

/-- A string is empty exactly when its length is zero. -/
lemma string_length_eq_zero_iff (s : String) : s.length = 0 ↔ s = "" := by
  cases s with
  | mk data => simp [String.length, String.ext_iff]

/-- The constant-time loop on identical buffers accumulates zero and touches
every byte. -/
lemma timingSafeEqAux_self (l : List Nat) : timingSafeEqAux l l = (0, l.length) := by
  induction l with
  | nil => rfl
  | cons x xs ih => simp [timingSafeEqAux, ih, Nat.xor_self]

/-- The constant-time loop performs one iteration per byte whenever the two
buffers have equal length, regardless of their contents. -/
lemma timingSafeEqAux_snd_of_length_eq :
    ∀ (a b : List Nat), a.length = b.length → (timingSafeEqAux a b).2 = a.length := by
  intro a
  induction a with
  | nil =>
    intro b hb
    cases b with
    | nil => rfl
    | cons y ys => simp at hb
  | cons x xs ih =>
    intro b hb
    cases b with
    | nil => simp at hb
    | cons y ys =>
      simp only [List.length_cons, Nat.succ.injEq] at hb
      simp [timingSafeEqAux, ih ys hb]

/-- Every `socketModeConnected` handler writes a constant, so a fold over the
signals is determined by the last signal alone. -/
lemma foldl_applySignal_getLast :
    ∀ (l : List LifecycleSignal) (b : Bool),
      l.foldl applySignal b =
        (match l.getLast? with
         | none => b
         | some s => applySignal false s) := by
  intro l
  induction l using List.reverseRecOn with
  | nil => intro b; rfl
  | append_singleton ys y ih =>
    intro b
    rw [List.foldl_append, List.getLast?_concat]
    cases y <;> rfl

/-- On non-falsy inputs and a successfully generated expected signature,
`verifySignature` reaches the buffer-length comparison; this lemma names the
resulting normal form used by several claim proofs. -/
lemma verifySignature_unfold (payload signature secret : String)
    (hp : payload.length ≠ 0) (hsig : signature.length ≠ 0) (hsec : secret.length ≠ 0)
    (expectedSig : String)
    (hgen : generateSignature payload secret = Except.ok expectedSig) :
    verifySignature payload signature secret =
      (if (hexDecode (stripSigTag expectedSig)).length != (hexDecode (stripSigTag signature)).length
       then Except.ok false
       else timingSafeEqual (hexDecode (stripSigTag expectedSig)) (hexDecode (stripSigTag signature))) := by
  unfold verifySignature
  rw [if_neg, hgen]
  simp [hp, hsig, hsec]

/-- The comparison-step counter reaches the same normal form under the same
hypotheses. -/
lemma verifyCompareSteps_unfold (payload signature secret : String)
    (hp : payload.length ≠ 0) (hsig : signature.length ≠ 0) (hsec : secret.length ≠ 0)
    (expectedSig : String)
    (hgen : generateSignature payload secret = Except.ok expectedSig) :
    verifyCompareSteps payload signature secret =
      (if (hexDecode (stripSigTag expectedSig)).length != (hexDecode (stripSigTag signature)).length
       then 0
       else (timingSafeEqAux (hexDecode (stripSigTag expectedSig)) (hexDecode (stripSigTag signature))).2) := by
  unfold verifyCompareSteps
  rw [if_neg, hgen]
  simp [hp, hsig, hsec]

/-! ## Claim theorems -/

/-- C1: evaluation of the code at the failing input. With `ConnectivityState`
disconnected, the first delivery attempt already goes to the webhook channel;
when that attempt fails (here a non-2xx reply, whose rejection object carries
no `message` property), the catch block's guard compares `undefined` with
`'webhook fallback already used'`, finds them different, and re-enters the
webhook path: the webhook channel is invoked a second time and both outbound
calls of the delivery go to the same channel, contrary to the claim (and to
the single-shot intent documented by the sentinel string the guard tests,
which no code ever throws). -/
theorem doubleWebhookOnFallbackFailure :
    sendWebhookMessage 500 "server error" =
      Except.error (WebhookFailure.httpStatus 500 "server error") ∧
    routerTrace false none (some (WebhookFailure.httpStatus 500 "server error")) =
      [Channel.webhook, Channel.webhook] ∧
    (routerTrace false none (some (WebhookFailure.httpStatus 500 "server error"))).count
        Channel.webhook = 2 := by
  refine ⟨rfl, ?_, ?_⟩ <;> decide

/-- C2, counterexample: when the persistent-session send throws an error whose
`message` is exactly `'webhook fallback already used'`, the catch-block guard
suppresses the fallback and the webhook channel is invoked zero times, not
exactly once as the claim states. -/
theorem sentinelMessageSuppressesFallback :
    routerTrace true (some (JsError.mk (some "webhook fallback already used"))) none =
      [Channel.persistent] ∧
    (routerTrace true (some (JsError.mk (some "webhook fallback already used"))) none).count
        Channel.webhook = 0 := by
  refine ⟨?_, ?_⟩ <;> decide

/-- C2, amended: when `ConnectivityState` is connected and the persistent
session send throws an error whose `message` is not the sentinel string
`'webhook fallback already used'`, the router invokes the one-shot webhook
channel exactly once afterwards. -/
theorem fallbackInvokedOnceOnPrimaryFailure :
    ∀ (e : JsError) (w : Option WebhookFailure),
      e.message ≠ some "webhook fallback already used" →
      routerTrace true (some e) w = [Channel.persistent, Channel.webhook] ∧
      (routerTrace true (some e) w).count Channel.webhook = 1 := by
  intro e w h
  have ht : routerTrace true (some e) w = [Channel.persistent, Channel.webhook] := by
    simp [routerTrace, h]
  exact ⟨ht, by rw [ht]; decide⟩

/-- C2, witness: a primary failure with an ordinary error message yields
exactly one webhook invocation. -/
theorem fallbackInvokedOnceOnPrimaryFailureWitness :
    (JsError.mk (some "boom")).message ≠ some "webhook fallback already used" ∧
    routerTrace true (some (JsError.mk (some "boom"))) none =
      [Channel.persistent, Channel.webhook] ∧
    (routerTrace true (some (JsError.mk (some "boom"))) none).count Channel.webhook = 1 :=
  ⟨by decide,
   (fallbackInvokedOnceOnPrimaryFailure (JsError.mk (some "boom")) none (by decide)).1,
   (fallbackInvokedOnceOnPrimaryFailure (JsError.mk (some "boom")) none (by decide)).2⟩

/-- C3: when `ConnectivityState` is disconnected at the start of a delivery,
the router never invokes the persistent-session send and the first outbound
call goes to the one-shot webhook channel. -/
theorem disconnectedSkipsPersistent :
    ∀ (primary : Option JsError) (webhook1 : Option WebhookFailure),
      (routerTrace false primary webhook1).count Channel.persistent = 0 ∧
      (routerTrace false primary webhook1).head? = some Channel.webhook := by
  intro p w
  cases w with
  | none => simp [routerTrace, List.count_cons]
  | some e =>
    by_cases h : e.message = some "webhook fallback already used" <;>
      simp [routerTrace, h, List.count_cons]

/-- C4, counterexample: the startup routine's write (`socketModeConnected =
true` after `slackApp.start()` resolves) sets the flag to connected although
no `authenticated` signal ever arrived, so `authenticated` is not the only
signal that sets the flag true and the flag does not stay disconnected until
the first `authenticated` signal. -/
theorem startupWriteWithoutAuthenticated :
    socketModeConnectedAfter [LifecycleSignal.startupComplete] = true ∧
    ([LifecycleSignal.startupComplete] : List LifecycleSignal).count
        LifecycleSignal.authenticated = 0 := by
  refine ⟨?_, ?_⟩ <;> decide

/-- C4, amended: `socketModeConnected` is initialized `false`; the
`connecting`, `disconnecting`, `reconnecting` and error handlers write
`false`; and the flag is connected exactly when the most recent write came
from the `authenticated` handler or from the startup routine's write after
`slackApp.start()` resolves. -/
theorem connectedIffLastSignalAuthOrStartup :
    socketModeConnectedAfter [] = false ∧
    ∀ l : List LifecycleSignal,
      socketModeConnectedAfter l =
        ((l.getLast? == some LifecycleSignal.authenticated) ||
         (l.getLast? == some LifecycleSignal.startupComplete)) := by
  refine ⟨rfl, ?_⟩
  intro l
  rw [socketModeConnectedAfter, foldl_applySignal_getLast]
  cases hl : l.getLast? with
  | none => rfl
  | some s => cases s <;> rfl

/-- C5: in every run of the handler body for a valid signed event, the 200
acknowledgment is the first event of the trace — it precedes the render step
and every outbound delivery call — and its status and text are the same
constants for every render outcome, connectivity state, and delivery outcome,
so delivery failure never changes the HTTP response. -/
theorem ackPrecedesDelivery :
    ∀ (renderOk socketModeConnected : Bool) (primary : Option JsError)
      (webhook1 : Option WebhookFailure),
      noOutboundBeforeAck
          (webhookHandlerTrace renderOk socketModeConnected primary webhook1) = true ∧
      firstAck (webhookHandlerTrace renderOk socketModeConnected primary webhook1) =
        some (200, "Webhook received") := by
  intro r c p w
  exact ⟨rfl, rfl⟩

/-- C6: round-trip verification. For every non-empty body and non-empty
secret, verifying the signature that `generateSignature` produced for that
body under the same secret succeeds (and in particular throws nothing). -/
theorem verifyRoundtrip :
    ∀ (body secret sig : String), body ≠ "" → secret ≠ "" →
      generateSignature body secret = Except.ok sig →
      verifySignature body sig secret = Except.ok true := by
  intro body secret sig hb hs hgen
  have hsec : secret.length ≠ 0 := fun h => hs ((string_length_eq_zero_iff secret).mp h)
  have hbody : body.length ≠ 0 := fun h => hb ((string_length_eq_zero_iff body).mp h)
  have hgen2 := hgen
  unfold generateSignature at hgen2
  rw [if_neg hsec] at hgen2
  have hsig : sig = "sha256=" ++ hmacSha256Hex (utf8Bytes secret) (utf8Bytes body) := by
    injection hgen2 with h
    exact h.symm
  have h7 : ("sha256=" : String).length = 7 := rfl
  have hsiglen : sig.length ≠ 0 := by
    rw [hsig, String.length_append, h7]
    omega
  rw [verifySignature_unfold body sig secret hbody hsiglen hsec sig hgen]
  simp [timingSafeEqual, timingSafeEqAux_self]

/-- C6, witness: the round trip at body `"x"` and secret `"k"`. -/
theorem verifyRoundtripWitness :
    ("x" : String) ≠ "" ∧ ("k" : String) ≠ "" ∧
    generateSignature "x" "k" =
      Except.ok ("sha256=" ++ hmacSha256Hex (utf8Bytes "k") (utf8Bytes "x")) ∧
    verifySignature "x" ("sha256=" ++ hmacSha256Hex (utf8Bytes "k") (utf8Bytes "x")) "k" =
      Except.ok true :=
  ⟨by decide, by decide, rfl,
   verifyRoundtrip "x" "k" ("sha256=" ++ hmacSha256Hex (utf8Bytes "k") (utf8Bytes "x"))
     (by decide) (by decide) rfl⟩

/-- C7: for non-empty inputs, whenever the hex-decoded byte length of the
received signature differs from that of the expected signature,
`verifySignature` returns `false` (`Except.ok`, so nothing is thrown) and the
byte-comparison loop runs zero iterations, so no contents are compared. -/
theorem lengthMismatchRejectedWithoutThrow :
    ∀ (payload signature secret expectedSig : String),
      payload ≠ "" → signature ≠ "" → secret ≠ "" →
      generateSignature payload secret = Except.ok expectedSig →
      (hexDecode (stripSigTag signature)).length ≠
        (hexDecode (stripSigTag expectedSig)).length →
      verifySignature payload signature secret = Except.ok false ∧
      verifyCompareSteps payload signature secret = 0 := by
  intro payload signature secret expectedSig hp hsig hsec hgen hlen
  have hp2 : payload.length ≠ 0 := fun h => hp ((string_length_eq_zero_iff payload).mp h)
  have hsig2 : signature.length ≠ 0 := fun h => hsig ((string_length_eq_zero_iff signature).mp h)
  have hsec2 : secret.length ≠ 0 := fun h => hsec ((string_length_eq_zero_iff secret).mp h)
  have hbne : ((hexDecode (stripSigTag expectedSig)).length !=
      (hexDecode (stripSigTag signature)).length) = true := by
    simp only [bne_iff_ne, ne_eq]
    exact fun h => hlen h.symm
  constructor
  · rw [verifySignature_unfold payload signature secret hp2 hsig2 hsec2 expectedSig hgen,
        if_pos hbne]
  · rw [verifyCompareSteps_unfold payload signature secret hp2 hsig2 hsec2 expectedSig hgen,
        if_pos hbne]

/-- C7, witness: the received signature `sha256=00` decodes to one byte while
the expected digest decodes to 32, and verification returns `false` with zero
comparison iterations. -/
theorem lengthMismatchRejectedWithoutThrowWitness :
    (hexDecode (stripSigTag "sha256=00")).length ≠
      (hexDecode (stripSigTag ("sha256=" ++ hmacSha256Hex (utf8Bytes "k") (utf8Bytes "x")))).length ∧
    verifySignature "x" "sha256=00" "k" = Except.ok false ∧
    verifyCompareSteps "x" "sha256=00" "k" = 0 :=
  ⟨by decide,
   (lengthMismatchRejectedWithoutThrow "x" "sha256=00" "k"
      ("sha256=" ++ hmacSha256Hex (utf8Bytes "k") (utf8Bytes "x"))
      (by decide) (by decide) (by decide) rfl (by decide)).1,
   (lengthMismatchRejectedWithoutThrow "x" "sha256=00" "k"
      ("sha256=" ++ hmacSha256Hex (utf8Bytes "k") (utf8Bytes "x"))
      (by decide) (by decide) (by decide) rfl (by decide)).2⟩

/-- C9: when the decoded lengths match, the byte-comparison loop of
`verifySignature` performs exactly one iteration per byte of the expected
digest — the iteration count is the full buffer length for every received
signature of matching decoded length, so it does not depend on the contents
or on the position of the first mismatching byte. -/
theorem timingIndependentOfMismatchPosition :
    ∀ (payload secret sig1 sig2 expectedSig : String),
      payload ≠ "" → secret ≠ "" → sig1 ≠ "" → sig2 ≠ "" →
      generateSignature payload secret = Except.ok expectedSig →
      (hexDecode (stripSigTag sig1)).length = (hexDecode (stripSigTag expectedSig)).length →
      (hexDecode (stripSigTag sig2)).length = (hexDecode (stripSigTag expectedSig)).length →
      verifyCompareSteps payload sig1 secret = (hexDecode (stripSigTag expectedSig)).length ∧
      verifyCompareSteps payload sig2 secret = verifyCompareSteps payload sig1 secret := by
  intro payload secret sig1 sig2 expectedSig hp hs h1 h2 hgen hl1 hl2
  have hp2 : payload.length ≠ 0 := fun h => hp ((string_length_eq_zero_iff payload).mp h)
  have hsec2 : secret.length ≠ 0 := fun h => hs ((string_length_eq_zero_iff secret).mp h)
  have key : ∀ sg : String, sg ≠ "" →
      (hexDecode (stripSigTag sg)).length = (hexDecode (stripSigTag expectedSig)).length →
      verifyCompareSteps payload sg secret = (hexDecode (stripSigTag expectedSig)).length := by
    intro sg hsg hl
    have hsg2 : sg.length ≠ 0 := fun h => hsg ((string_length_eq_zero_iff sg).mp h)
    rw [verifyCompareSteps_unfold payload sg secret hp2 hsg2 hsec2 expectedSig hgen, hl]
    simp [timingSafeEqAux_snd_of_length_eq _ _ hl.symm]
  exact ⟨key sig1 h1 hl1, by rw [key sig1 h1 hl1, key sig2 h2 hl2]⟩

/-- C9, witness: an all-zero and an all-ff 64-hex-character signature both
have the expected decoded length 32, and the comparison runs 32 iterations on
each, although the first differs from the digest at a different byte position
than the second. -/
theorem timingIndependentOfMismatchPositionWitness :
    (hexDecode (stripSigTag
        "0000000000000000000000000000000000000000000000000000000000000000")).length =
      (hexDecode (stripSigTag ("sha256=" ++ hmacSha256Hex (utf8Bytes "k") (utf8Bytes "x")))).length ∧
    (hexDecode (stripSigTag
        "ffffffffffffffffffffffffffffffffffffffffffffffffffffffffffffffff")).length =
      (hexDecode (stripSigTag ("sha256=" ++ hmacSha256Hex (utf8Bytes "k") (utf8Bytes "x")))).length ∧
    verifyCompareSteps "x"
        "0000000000000000000000000000000000000000000000000000000000000000" "k" =
      (hexDecode (stripSigTag ("sha256=" ++ hmacSha256Hex (utf8Bytes "k") (utf8Bytes "x")))).length ∧
    verifyCompareSteps "x"
        "ffffffffffffffffffffffffffffffffffffffffffffffffffffffffffffffff" "k" =
      verifyCompareSteps "x"
        "0000000000000000000000000000000000000000000000000000000000000000" "k" :=
  ⟨by decide, by decide,
   (timingIndependentOfMismatchPosition "x" "k"
      "0000000000000000000000000000000000000000000000000000000000000000"
      "ffffffffffffffffffffffffffffffffffffffffffffffffffffffffffffffff"
      ("sha256=" ++ hmacSha256Hex (utf8Bytes "k") (utf8Bytes "x"))
      (by decide) (by decide) (by decide) (by decide) rfl (by decide) (by decide)).1,
   (timingIndependentOfMismatchPosition "x" "k"
      "0000000000000000000000000000000000000000000000000000000000000000"
      "ffffffffffffffffffffffffffffffffffffffffffffffffffffffffffffffff"
      ("sha256=" ++ hmacSha256Hex (utf8Bytes "k") (utf8Bytes "x"))
      (by decide) (by decide) (by decide) (by decide) rfl (by decide) (by decide)).2⟩

/-- C8, counterexample: a POST with the signing secret configured and a
signature header present but an empty body is answered 500 (raw body not
captured), although the signature is invalid for that request
(`verifySignature` on the empty raw body returns `false`), where the claim's
case analysis prescribes 401. -/
theorem emptyBodyGets500NotAuthFailure :
    handleMcpPost (some "topsecret") (some "sha256=abcd") "" true true none none =
      RequestOutcome.rejected 500 "Raw request body not available for verification." ∧
    verifySignature "" "sha256=abcd" "topsecret" = Except.ok false :=
  ⟨by decide, rfl⟩

/-- C8, amended: on every inbound POST of the webhook path the middleware
answers 500 when the signing secret is missing or empty; else 400 when the
`MCP-Signature` header is missing or empty; else 500 when the raw body is
empty (not captured); else 401 when the signature is invalid; else the
handler runs and its first event is the 200 acknowledgment, independent of
the delivery outcome; and every rejected request performs zero outbound
delivery calls. -/
theorem middlewareResponseCases :
    ∀ (secret signatureHeader : Option String) (body : String) (renderOk conn : Bool)
      (p : Option JsError) (w : Option WebhookFailure),
      (jsStrTruthy secret = false →
        handleMcpPost secret signatureHeader body renderOk conn p w =
          RequestOutcome.rejected 500 "Webhook signing secret not configured.") ∧
      (jsStrTruthy secret = true → jsStrTruthy signatureHeader = false →
        handleMcpPost secret signatureHeader body renderOk conn p w =
          RequestOutcome.rejected 400 "Missing signature header.") ∧
      (jsStrTruthy secret = true → jsStrTruthy signatureHeader = true → body = "" →
        handleMcpPost secret signatureHeader body renderOk conn p w =
          RequestOutcome.rejected 500 "Raw request body not available for verification.") ∧
      (jsStrTruthy secret = true → jsStrTruthy signatureHeader = true → body ≠ "" →
        verifySignature body (signatureHeader.getD "") (secret.getD "") = Except.ok false →
        handleMcpPost secret signatureHeader body renderOk conn p w =
          RequestOutcome.rejected 401 "Invalid signature.") ∧
      (jsStrTruthy secret = true → jsStrTruthy signatureHeader = true → body ≠ "" →
        verifySignature body (signatureHeader.getD "") (secret.getD "") = Except.ok true →
        handleMcpPost secret signatureHeader body renderOk conn p w =
          RequestOutcome.processed (webhookHandlerTrace renderOk conn p w) ∧
        firstAck (webhookHandlerTrace renderOk conn p w) = some (200, "Webhook received")) ∧
      (∀ status text,
        handleMcpPost secret signatureHeader body renderOk conn p w =
          RequestOutcome.rejected status text →
        outboundCalls (handleMcpPost secret signatureHeader body renderOk conn p w) = []) := by
  intro secret sigH body r c p w
  refine ⟨?_, ?_, ?_, ?_, ?_, ?_⟩
  · intro h1
    simp [handleMcpPost, mcpVerifyMiddleware, h1]
  · intro h1 h2
    simp [handleMcpPost, mcpVerifyMiddleware, h1, h2]
  · intro h1 h2 hbody
    subst hbody
    have hc : captureRawBody "" = none := rfl
    have hn : jsStrTruthy none = false := rfl
    simp [handleMcpPost, mcpVerifyMiddleware, h1, h2, hc, hn]
  · intro h1 h2 hbody hverify
    have hblen : body.length ≠ 0 := fun h => hbody ((string_length_eq_zero_iff body).mp h)
    have hc : captureRawBody body = some body := by
      unfold captureRawBody
      rw [if_pos (by simpa [bne_iff_ne] using hblen)]
    have hb : jsStrTruthy (some body) = true := by
      simpa [jsStrTruthy, bne_iff_ne] using hblen
    simp [handleMcpPost, mcpVerifyMiddleware, h1, h2, hc, hb, hverify]
  · intro h1 h2 hbody hverify
    have hblen : body.length ≠ 0 := fun h => hbody ((string_length_eq_zero_iff body).mp h)
    have hc : captureRawBody body = some body := by
      unfold captureRawBody
      rw [if_pos (by simpa [bne_iff_ne] using hblen)]
    have hb : jsStrTruthy (some body) = true := by
      simpa [jsStrTruthy, bne_iff_ne] using hblen
    refine ⟨?_, rfl⟩
    simp [handleMcpPost, mcpVerifyMiddleware, h1, h2, hc, hb, hverify]
  · intro status text h
    rw [h]
    rfl

/-- C8, witness: with secret `"k"`, header `"sha256=00"` and body `"x"`, the
signature is invalid and the middleware answers 401. -/
theorem middlewareResponseCasesWitness :
    jsStrTruthy (some "k") = true ∧ jsStrTruthy (some "sha256=00") = true ∧
    ("x" : String) ≠ "" ∧
    verifySignature "x" "sha256=00" "k" = Except.ok false ∧
    handleMcpPost (some "k") (some "sha256=00") "x" true true none none =
      RequestOutcome.rejected 401 "Invalid signature." :=
  ⟨by decide, by decide, by decide, rfl,
   (middlewareResponseCases (some "k") (some "sha256=00") "x" true true none none).2.2.2.1
     (by decide) (by decide) (by decide) rfl⟩

/-- C10: a POST whose body is empty is rejected with 500 (raw request body not
available) even when the signing secret is configured and a signature header
is present, because the body-parser verify callback sets `req.rawBody` only
for a non-empty captured buffer. -/
theorem emptyBodyRejected500 :
    ∀ (secret signatureHeader : String) (renderOk conn : Bool)
      (p : Option JsError) (w : Option WebhookFailure),
      secret.length ≠ 0 → signatureHeader.length ≠ 0 →
      captureRawBody "" = none ∧
      handleMcpPost (some secret) (some signatureHeader) "" renderOk conn p w =
        RequestOutcome.rejected 500 "Raw request body not available for verification." := by
  intro secret sigH r c p w hs hh
  refine ⟨rfl, ?_⟩
  have h1 : jsStrTruthy (some secret) = true := by
    simpa [jsStrTruthy, bne_iff_ne] using hs
  have h2 : jsStrTruthy (some sigH) = true := by
    simpa [jsStrTruthy, bne_iff_ne] using hh
  have hc : captureRawBody "" = none := rfl
  have hn : jsStrTruthy none = false := rfl
  simp [handleMcpPost, mcpVerifyMiddleware, h1, h2, hc, hn]

/-- C10, witness: the empty-body rejection at secret `"k"` and header
`"sha256=ab"`. -/
theorem emptyBodyRejected500Witness :
    ("k" : String).length ≠ 0 ∧ ("sha256=ab" : String).length ≠ 0 ∧
    captureRawBody "" = none ∧
    handleMcpPost (some "k") (some "sha256=ab") "" true true none none =
      RequestOutcome.rejected 500 "Raw request body not available for verification." :=
  ⟨by decide, by decide,
   (emptyBodyRejected500 "k" "sha256=ab" true true none none (by decide) (by decide)).1,
   (emptyBodyRejected500 "k" "sha256=ab" true true none none (by decide) (by decide)).2⟩

end McpAlerts
